import Mathlib

/-!
Shallow embedding of the question-generation core of the Japanese dates
quiz (source: src/src/script.js).

Modelling conventions:
* JS numbers that hold integers are modelled as `Int` (or `Nat` for
  calendar fields that are always non-negative).
* A `Math.random()` result is modelled as an explicit rational
  parameter, constrained to `[0, 1)` in the theorems that use it.
* JS `undefined` (out-of-range array reads, sparse-array holes, missing
  object properties) is modelled with `Option`; an operation that would
  throw a `TypeError` on `undefined` propagates `none`.
* A JS `Date` constructed as `new Date(y, m, d)` is a local-midnight
  timestamp; two such values compare by `<` exactly as the triples
  `(y, m, d)` compare lexicographically, which is how `JDate` compares.
-/

namespace JDQ

/-- Models `getRandomInt(min, max, seed)` (script.js:165):
`Math.floor(seed * (max - min + 1)) + min`, with the seed given
explicitly. -/
def getRandomIntQ (lo hi : ℤ) (seed : ℚ) : ℤ :=
  ⌊seed * ((hi : ℚ) - (lo : ℚ) + 1)⌋ + lo

/-- Models `getRandomInt` as called with a seed argument that may be
`undefined` (`none`): the default parameter `seed = Math.random()` then
supplies a fresh draw, modelled by `fresh`. -/
def getRandomIntOpt (lo hi : ℤ) (seed : Option ℚ) (fresh : ℚ) : ℤ :=
  getRandomIntQ lo hi (seed.getD fresh)

/-- Models a JS array read `list[i]` at an integer index: `undefined`
(`none`) when the index is out of range. -/
def jsGet {α : Type} (l : List α) (i : ℤ) : Option α :=
  if i < 0 then none else l[i.toNat]?

/-- Models `randomFromList(list, seed)` (script.js:175):
`list[getRandomInt(0, list.length - 1, seed)]`. -/
def randomFromList {α : Type} (l : List α) (seed : Option ℚ) (fresh : ℚ) : Option α :=
  jsGet l (getRandomIntOpt 0 ((l.length : ℤ) - 1) seed fresh)

/-- Models `Array.prototype.findIndex`: index of the first match, `-1`
when no element matches. -/
def jsFindIndex {α : Type} (p : α → Bool) : List α → ℤ
  | [] => -1
  | x :: xs =>
    if p x then 0
    else
      let r := jsFindIndex p xs
      if r = -1 then -1 else r + 1

/-- Models the entries of the lookup tables `daysOfWeek`, `days` and
`months` (script.js:207-272). -/
structure LocalEntry where
  english : String
  kanji : String
  hiragana : String
deriving DecidableEq

/-- Table `daysOfWeek` (script.js:207). -/
def daysOfWeek : List LocalEntry :=
  [ ⟨"Sunday", "日曜日", "にちようび"⟩
  , ⟨"Monday", "月曜日", "げつようび"⟩
  , ⟨"Tuesday", "火曜日", "かようび"⟩
  , ⟨"Wednesday", "水曜日", "すいようび"⟩
  , ⟨"Thursday", "木曜日", "もくようび"⟩
  , ⟨"Friday", "金曜日", "きんようび"⟩
  , ⟨"Saturday", "土曜日", "どようび"⟩ ]

/-- Table `days` (script.js:221), one entry per day-of-month 1..31. -/
def days : List LocalEntry :=
  [ ⟨"1st", "一日", "ついたち"⟩
  , ⟨"2nd", "二日", "ふつか"⟩
  , ⟨"3rd", "三日", "みっか"⟩
  , ⟨"4th", "四日", "よっか"⟩
  , ⟨"5th", "五日", "いつか"⟩
  , ⟨"6th", "六日", "むいか"⟩
  , ⟨"7th", "七日", "なのか"⟩
  , ⟨"8th", "八日", "ようか"⟩
  , ⟨"9th", "九日", "ここのか"⟩
  , ⟨"10th", "十日", "とおか"⟩
  , ⟨"11th", "十一日", "じゅういちにち"⟩
  , ⟨"12th", "十二日", "じゅうににち"⟩
  , ⟨"13th", "十三日", "じゅうさんにち"⟩
  , ⟨"14th", "十四日", "じゅうよっか"⟩
  , ⟨"15th", "十五日", "じゅうごにち"⟩
  , ⟨"16th", "十六日", "じゅうろくにち"⟩
  , ⟨"17th", "十七日", "じゅうしちにち"⟩
  , ⟨"18th", "十八日", "じゅうはちにち"⟩
  , ⟨"19th", "十九日", "じゅうくにち"⟩
  , ⟨"20th", "二十日", "はつか"⟩
  , ⟨"21st", "二十一日", "にじゅういちにち"⟩
  , ⟨"22nd", "二十二日", "にじゅうににち"⟩
  , ⟨"23rd", "二十三日", "にじゅうさんにち"⟩
  , ⟨"24th", "二十四日", "にじゅうよっか"⟩
  , ⟨"25th", "二十五日", "にじゅうごにち"⟩
  , ⟨"26th", "二十六日", "にじゅうろくにち"⟩
  , ⟨"27th", "二十七日", "にじゅうしちにち"⟩
  , ⟨"28th", "二十八日", "にじゅうはちにち"⟩
  , ⟨"29th", "二十九日", "にじゅうくにち"⟩
  , ⟨"30th", "三十日", "さんじゅうにち"⟩
  , ⟨"31st", "三十一日", "さんじゅういちにち"⟩ ]

/-- Table `months` (script.js:259), one entry per month index 0..11. -/
def months : List LocalEntry :=
  [ ⟨"January", "一月", "いちがつ"⟩
  , ⟨"February", "二月", "にがつ"⟩
  , ⟨"March", "三月", "さんがつ"⟩
  , ⟨"April", "四月", "しがつ"⟩
  , ⟨"May", "五月", "ごがつ"⟩
  , ⟨"June", "六月", "ろくがつ"⟩
  , ⟨"July", "七月", "しちがつ"⟩
  , ⟨"August", "八月", "はちがつ"⟩
  , ⟨"September", "九月", "くがつ"⟩
  , ⟨"October", "十月", "じゅうがつ"⟩
  , ⟨"November", "十一月", "じゅういちがつ"⟩
  , ⟨"December", "十二月", "じゅうにがつ"⟩ ]

/-- Models reading a missing JS object property and then concatenating
it into a string: `undefined` renders as the text "undefined". -/
def jsStr (o : Option String) : String :=
  o.getD "undefined"

/-- Lookup object `kanjiSubs` (script.js:289): digits 1..9 only. -/
def kanjiSubs (n : ℤ) : Option String :=
  if n = 1 then some "一"
  else if n = 2 then some "二"
  else if n = 3 then some "三"
  else if n = 4 then some "四"
  else if n = 5 then some "五"
  else if n = 6 then some "六"
  else if n = 7 then some "七"
  else if n = 8 then some "八"
  else if n = 9 then some "九"
  else none

/-- Models `toKanji` (script.js:288).  JS `Math.floor(a / b)` is `Int.fdiv`
and JS `%` (remainder with the dividend's sign) is `Int.tmod`. -/
def toKanji (number : ℤ) : String :=
  if number = 0 then "零"
  else
    let thousands := number.fdiv 1000
    let hundreds := (number.tmod 1000).fdiv 100
    let tens := (number.tmod 100).fdiv 10
    let ones := number.tmod 10
    let kanji := ""
    let kanji :=
      if thousands > 0 then
        kanji ++ ((if thousands = 1 then "" else jsStr (kanjiSubs thousands)) ++ "千")
      else kanji
    let kanji :=
      if hundreds > 0 then
        kanji ++ ((if hundreds = 1 then "" else jsStr (kanjiSubs hundreds)) ++ "百")
      else kanji
    let kanji :=
      if tens > 0 then
        kanji ++ ((if tens = 1 then "" else jsStr (kanjiSubs tens)) ++ "十")
      else kanji
    let kanji :=
      if ones > 0 then kanji ++ jsStr (kanjiSubs ones) else kanji
    kanji

/-- Lookup object `hiraganaSubs` (script.js:340): digits 1..9 only. -/
def hiraganaSubs (n : ℤ) : Option String :=
  if n = 1 then some "いち"
  else if n = 2 then some "に"
  else if n = 3 then some "さん"
  else if n = 4 then some "よん"
  else if n = 5 then some "ご"
  else if n = 6 then some "ろく"
  else if n = 7 then some "なな"
  else if n = 8 then some "はち"
  else if n = 9 then some "きゅう"
  else none

/-- Models `toHiragana` (script.js:339). -/
def toHiragana (number : ℤ) : String :=
  if number = 0 then "れい"
  else
    let thousands := number.fdiv 1000
    let hundreds := (number.tmod 1000).fdiv 100
    let tens := (number.tmod 100).fdiv 10
    let ones := number.tmod 10
    let hiragana := ""
    let hiragana :=
      if thousands > 0 then
        hiragana ++
          (if thousands = 1 then "せん"
           else if thousands = 3 then "さんぜん"
           else if thousands = 8 then "はっせん"
           else jsStr (hiraganaSubs thousands) ++ "せん")
      else hiragana
    let hiragana :=
      if hundreds > 0 then
        hiragana ++
          (if hundreds = 1 then "ひゃく"
           else if hundreds = 3 then "さんびゃく"
           else if hundreds = 6 then "ろっぴゃく"
           else if hundreds = 8 then "はっぴゃく"
           else jsStr (hiraganaSubs hundreds) ++ "ひゃく")
      else hiragana
    let hiragana :=
      if tens > 0 then
        hiragana ++ ((if tens = 1 then "" else jsStr (hiraganaSubs tens)) ++ "じゅう")
      else hiragana
    let hiragana :=
      if ones > 0 then hiragana ++ jsStr (hiraganaSubs ones) else hiragana
    hiragana

/-- Return value of `dynamicYear` (script.js:279). -/
structure EraYear where
  imperialEnglish : String
  imperialKanji : String
  imperialHiragana : String
  westernEnglish : String
  westernKanji : String
  westernHiragana : String
deriving DecidableEq

/-- Models `dynamicYear` (script.js:279): the era converter.  JS string
concatenation `'Reiwa ' + imperialYear` renders the integer in decimal,
which is `toString` on `Int`. -/
def dynamicYear (year : ℤ) : EraYear :=
  let standardYearKanji := toKanji year
  let standardYearHiragana := toHiragana year
  let imperialYear := year - 2018
  let imperialYearKanji := toKanji imperialYear
  let imperialYearHiragana := toHiragana imperialYear
  { imperialEnglish := "Reiwa " ++ toString imperialYear
  , imperialKanji := "令和" ++ imperialYearKanji ++ "年"
  , imperialHiragana := "れいわ" ++ imperialYearHiragana ++ "ねん"
  , westernEnglish := toString year
  , westernKanji := standardYearKanji ++ "年"
  , westernHiragana := standardYearHiragana ++ "ねん" }

/-- Models `joinWithArrow` (script.js:430). -/
def joinWithArrow (elements : List String) : String :=
  String.intercalate " → " elements

/-- Gregorian leap-year rule, as implemented by the JS `Date` object. -/
def isLeap (y : ℕ) : Bool :=
  (y % 4 == 0 && y % 100 != 0) || y % 400 == 0

/-- Models `new Date(year, month + 1, 0).getDate()` (script.js:1026):
the number of days of month `m` (0-based) of year `y`. -/
def daysInMonth (y m : ℕ) : ℕ :=
  match m with
  | 1 => if isLeap y then 29 else 28
  | 0 | 2 | 4 | 6 | 7 | 9 | 11 => 31
  | _ => 30

/-- Cumulative day counts before each month of a non-leap year. -/
def cumDaysBefore (m : ℕ) : ℕ :=
  [0, 31, 59, 90, 120, 151, 181, 212, 243, 273, 304, 334].getD m 0

/-- Number of leap years strictly before year `y` (proleptic Gregorian). -/
def leapDaysBefore (y : ℕ) : ℕ :=
  ((y - 1) / 4 - (y - 1) / 100) + (y - 1) / 400

/-- Serial number of a calendar day in the proleptic Gregorian calendar;
day 1 is 0001-01-01 (a Monday).  `m` is 0-based, `d` is 1-based. -/
def serialDay (y m d : ℕ) : ℕ :=
  365 * (y - 1) + leapDaysBefore y + cumDaysBefore m +
    (if 2 ≤ m && isLeap y then 1 else 0) + d

/-- Models `Date.prototype.getDay()`: 0 = Sunday … 6 = Saturday.
Calibration: serial day 1 (0001-01-01) is a Monday, and 1 % 7 = 1. -/
def dayOfWeek (y m d : ℕ) : ℕ :=
  serialDay y m d % 7

/-- Models a JS `Date` at local midnight: year, 0-based month index and
1-based day-of-month, the three accessors the core reads. -/
structure JDate where
  year : ℕ
  month : ℕ
  day : ℕ
deriving DecidableEq

/-- Models `date.getDay()` on a `JDate`. -/
def JDate.getDay (dt : JDate) : ℕ :=
  dayOfWeek dt.year dt.month dt.day

/-- Models the JS `<` comparison of two midnight `Date` values (timestamp
order, which for midnight dates is lexicographic on (year, month, day)). -/
def JDate.lt (a b : JDate) : Bool :=
  a.year < b.year ||
    (a.year == b.year && (a.month < b.month ||
      (a.month == b.month && a.day < b.day)))

/-- Models the fresh `currentWeek = [null × 7]` row of `getWeeks`. -/
def emptyWeek {α : Type} : List (Option α) :=
  [none, none, none, none, none, none, none]

/-- Loop of `getWeeks` (script.js:1043-1049): place each day at the slot
of its weekday, flush the row when the day is a Saturday or is the last
day of the month (`day.getDay() === 6 || i === days.length - 1`); on the
last day exactly one row is pushed whether or not it is also a Saturday,
which is what the leading `rest.isEmpty` test transcribes.  Generic in
the weekday function so the same recursion can be analysed on bare day
numbers. -/
def weeksGo {α : Type} (wd : α → ℕ) : List α → List (Option α) → List (List (Option α))
  | [], _ => []
  | d :: rest, cur =>
    let cur' := cur.set (wd d) (some d)
    if rest.isEmpty then [cur']
    else if wd d == 6 then cur' :: weeksGo wd rest emptyWeek
    else weeksGo wd rest cur'

/-- The ordered calendar days of month `m` of year `y`, as built by the
first loop of `getWeeks` (script.js:1034-1037). -/
def monthDates (y m : ℕ) : List JDate :=
  (List.range (daysInMonth y m)).map (fun i => ⟨y, m, i + 1⟩)

/-- Models `getWeeks(date)` (script.js:1023): the week rows of the month
containing `date`; only the year and month of the argument matter. -/
def getWeeks (y m : ℕ) : List (List (Option JDate)) :=
  weeksGo JDate.getDay (monthDates y m) emptyWeek

/-- Weekday of the first day of month `m` of year `y`. -/
def firstDow (y m : ℕ) : ℕ :=
  dayOfWeek y m 1

/-- Week rows of a month reduced to its shape: `fd` is the weekday of
day 1 and `nd` the number of days; rows hold bare day numbers. -/
def weeksN (fd nd : ℕ) : List (List (Option ℕ)) :=
  weeksGo (fun d => (fd + (d - 1)) % 7) (List.range' 1 nd) emptyWeek

/-- Models the `weeks.findIndex((week) => week.some((day) => day &&
day.getDate() === date.getDate()))` lookup shared by the six
week-relative templates (e.g. script.js:760-762). -/
def currentWeekIndex (weeks : List (List (Option JDate))) (date : JDate) : ℤ :=
  jsFindIndex
    (fun week => week.any (fun day =>
      match day with
      | some dd => dd.day == date.day
      | none => false))
    weeks

/-- Shared target-day selection of the six week-relative templates
(e.g. script.js:758-766): build the week grid of the month of the wall
clock `now` (the source reads `new Date()` here, not the reference
date), locate the row whose slot matches the reference date's
day-of-month, step `offset` rows, and pick a random real day of that
row with `randomFromList`. -/
def weekTargetDay (now ref : JDate) (offset : ℤ) (seed : Option ℚ) (fresh : ℚ) :
    Option JDate :=
  let weeks := getWeeks now.year now.month
  let idx := currentWeekIndex weeks ref
  match jsGet weeks (idx + offset) with
  | none => none
  | some week => randomFromList (week.filterMap id) seed fresh

/-- Arguments available to a template call: the wall clock (`new
Date()`), the session's reference date, the stored per-question seed
(`undefined` is `none`), and the value a fresh `Math.random()` draw
would produce inside the call. -/
structure Ctx where
  now : JDate
  date : JDate
  seed : Option ℚ
  fresh : ℚ

/-- One question template: the `createQuestion`/`answer` closure pair of
the `questionGenerator` array (script.js:438).  Output is the list of
rendered text lines; `none` models a thrown `TypeError` on an
`undefined` table entry. -/
structure Template where
  createQuestion : Ctx → Option (List String)
  answer : Ctx → Option (List String)

/-- Models `daysOfWeek[day.getDay() % 7]`. -/
def dayOfWeekEntry (dt : JDate) : Option LocalEntry :=
  jsGet daysOfWeek ((dt.getDay % 7 : ℕ) : ℤ)

/-- Models `day.setDate(day.getDate() + 1)` crossing month and year ends. -/
def nextDay (dt : JDate) : JDate :=
  if dt.day < daysInMonth dt.year dt.month then ⟨dt.year, dt.month, dt.day + 1⟩
  else if dt.month < 11 then ⟨dt.year, dt.month + 1, 1⟩
  else ⟨dt.year + 1, 0, 1⟩

/-- Models `day.setDate(day.getDate() - 1)` crossing month and year ends. -/
def prevDay (dt : JDate) : JDate :=
  if 1 < dt.day then ⟨dt.year, dt.month, dt.day - 1⟩
  else if 0 < dt.month then ⟨dt.year, dt.month - 1, daysInMonth dt.year (dt.month - 1)⟩
  else ⟨dt.year - 1, 11, daysInMonth (dt.year - 1) 11⟩

/-- Models `day.setDate(day.getDate() + n)` for the signed offsets the
catalog uses. -/
def addDays (dt : JDate) (n : ℤ) : JDate :=
  if 0 ≤ n then Nat.iterate nextDay n.toNat dt else Nat.iterate prevDay (-n).toNat dt

/-- Template 1 (script.js:440): day of week, day before yesterday. -/
def qDowM2 : Template :=
  { createQuestion := fun _ => some ["一昨日は何曜日でしたか？"]
  , answer := fun c =>
      let day := addDays c.date (-2)
      (dayOfWeekEntry day).map (fun e =>
        [joinWithArrow ["What day was it the day before yesterday?",
          e.english, e.kanji, e.hiragana]]) }

/-- Template 2 (script.js:459): day of week, yesterday. -/
def qDowM1 : Template :=
  { createQuestion := fun _ => some ["昨日は何曜日でしたか？"]
  , answer := fun c =>
      let day := addDays c.date (-1)
      (dayOfWeekEntry day).map (fun e =>
        [joinWithArrow ["What day was it yesterday?",
          e.english, e.kanji, e.hiragana]]) }

/-- Template 3 (script.js:478): day of week, today. -/
def qDow0 : Template :=
  { createQuestion := fun _ => some ["今日は何曜日ですか？"]
  , answer := fun c =>
      (dayOfWeekEntry c.date).map (fun e =>
        [joinWithArrow ["What day is it today?",
          e.english, e.kanji, e.hiragana]]) }

/-- Template 4 (script.js:495): day of week, tomorrow. -/
def qDowP1 : Template :=
  { createQuestion := fun _ => some ["明日は何曜日ですか？"]
  , answer := fun c =>
      let day := addDays c.date 1
      (dayOfWeekEntry day).map (fun e =>
        [joinWithArrow ["What day is it tomorrow?",
          e.english, e.kanji, e.hiragana]]) }

/-- Template 5 (script.js:514): day of week, day after tomorrow. -/
def qDowP2 : Template :=
  { createQuestion := fun _ => some ["明後日は何曜日ですか？"]
  , answer := fun c =>
      let day := addDays c.date 2
      (dayOfWeekEntry day).map (fun e =>
        [joinWithArrow ["What day is it the day after tomorrow?",
          e.english, e.kanji, e.hiragana]]) }

/-- Template 6 (script.js:534): date, day before yesterday; reads
`days[date.getDate() - 3]`. -/
def qDateM2 : Template :=
  { createQuestion := fun _ => some ["一昨日は何日でしたか？"]
  , answer := fun c =>
      (jsGet days ((c.date.day : ℤ) - 3)).map (fun e =>
        [joinWithArrow ["What date was it the day before yesterday?",
          e.english, e.kanji, e.hiragana]]) }

/-- Template 7 (script.js:551): date, yesterday; reads
`days[date.getDate() - 2]`. -/
def qDateM1 : Template :=
  { createQuestion := fun _ => some ["昨日は何日でしたか？"]
  , answer := fun c =>
      (jsGet days ((c.date.day : ℤ) - 2)).map (fun e =>
        [joinWithArrow ["What date was it yesterday?",
          e.english, e.kanji, e.hiragana]]) }

/-- Template 8 (script.js:568): date, today; reads
`days[date.getDate() - 1]`. -/
def qDate0 : Template :=
  { createQuestion := fun _ => some ["今日は何日ですか？"]
  , answer := fun c =>
      (jsGet days ((c.date.day : ℤ) - 1)).map (fun e =>
        [joinWithArrow ["What date is it today?",
          e.english, e.kanji, e.hiragana]]) }

/-- Template 9 (script.js:585): date, tomorrow; reads
`days[date.getDate()]`. -/
def qDateP1 : Template :=
  { createQuestion := fun _ => some ["明日は何日ですか？"]
  , answer := fun c =>
      (jsGet days ((c.date.day : ℤ))).map (fun e =>
        [joinWithArrow ["What date is it tomorrow?",
          e.english, e.kanji, e.hiragana]]) }

/-- Template 10 (script.js:602): date, day after tomorrow; reads
`days[date.getDate() + 1]`. -/
def qDateP2 : Template :=
  { createQuestion := fun _ => some ["明後日は何日ですか？"]
  , answer := fun c =>
      (jsGet days ((c.date.day : ℤ) + 1)).map (fun e =>
        [joinWithArrow ["What date is it the day after tomorrow?",
          e.english, e.kanji, e.hiragana]]) }

/-- Template 11 (script.js:620): last month; reads
`months[Math.max(date.getMonth() - 1, 0)]`. -/
def qMonthLast : Template :=
  { createQuestion := fun _ => some ["先月は何月でしたか？"]
  , answer := fun c =>
      (jsGet months (max ((c.date.month : ℤ) - 1) 0)).map (fun e =>
        [joinWithArrow ["What month was it last month?",
          e.english, e.kanji, e.hiragana]]) }

/-- Template 12 (script.js:637): this month; reads
`months[date.getMonth()]`. -/
def qMonthThis : Template :=
  { createQuestion := fun _ => some ["今月は何月ですか？"]
  , answer := fun c =>
      (jsGet months ((c.date.month : ℤ))).map (fun e =>
        [joinWithArrow ["What month is it this month?",
          e.english, e.kanji, e.hiragana]]) }

/-- Template 13 (script.js:654): next month; reads
`months[Math.min(date.getMonth() + 1, 12)]`. -/
def qMonthNext : Template :=
  { createQuestion := fun _ => some ["来月は何月ですか？"]
  , answer := fun c =>
      (jsGet months (min ((c.date.month : ℤ) + 1) 12)).map (fun e =>
        [joinWithArrow ["What month is it next month?",
          e.english, e.kanji, e.hiragana]]) }

/-- Template 14 (script.js:672): last year. -/
def qYearLast : Template :=
  { createQuestion := fun _ => some ["去年は何年でしたか？"]
  , answer := fun c =>
      let answers := dynamicYear ((c.date.year : ℤ) - 1)
      some
        [ joinWithArrow ["What year was it last year?",
            answers.westernEnglish ++ " - 2019 + 1", answers.imperialEnglish,
            answers.imperialKanji, answers.imperialHiragana]
        , "OR"
        , joinWithArrow [answers.westernEnglish, answers.westernKanji,
            answers.westernHiragana] ] }

/-- Template 15 (script.js:700): this year. -/
def qYearThis : Template :=
  { createQuestion := fun _ => some ["今年は何年ですか？"]
  , answer := fun c =>
      let answers := dynamicYear ((c.date.year : ℤ))
      some
        [ joinWithArrow ["What year is it this year?",
            answers.westernEnglish ++ " - 2019 + 1", answers.imperialEnglish,
            answers.imperialKanji, answers.imperialHiragana]
        , "OR"
        , joinWithArrow [answers.westernEnglish, answers.westernKanji,
            answers.westernHiragana] ] }

/-- Template 16 (script.js:728): next year. -/
def qYearNext : Template :=
  { createQuestion := fun _ => some ["来年は何年ですか？"]
  , answer := fun c =>
      let answers := dynamicYear ((c.date.year : ℤ) + 1)
      some
        [ joinWithArrow ["What year is it next year?",
            answers.westernEnglish ++ " - 2019 + 1", answers.imperialEnglish,
            answers.imperialKanji, answers.imperialHiragana]
        , "OR"
        , joinWithArrow [answers.westernEnglish, answers.westernKanji,
            answers.westernHiragana] ] }

/-- Template 17 (script.js:757): last week's weekday, asking for the date. -/
def qLastWeekDate : Template :=
  { createQuestion := fun c =>
      (weekTargetDay c.now c.date (-1) c.seed c.fresh).bind (fun t =>
        (dayOfWeekEntry t).map (fun e =>
          ["先週の" ++ e.kanji ++ "は何日でしたか？"]))
  , answer := fun c =>
      (weekTargetDay c.now c.date (-1) c.seed c.fresh).bind (fun t =>
        (dayOfWeekEntry t).map (fun e =>
          [joinWithArrow ["What date was last week\x27s " ++ e.english ++ "?",
            e.english, e.kanji, e.hiragana]])) }

/-- Template 18 (script.js:799): this week's weekday, asking for the
date, phrased in the past tense when the target precedes the reference
date. -/
def qThisWeekDate : Template :=
  { createQuestion := fun c =>
      (weekTargetDay c.now c.date 0 c.seed c.fresh).bind (fun t =>
        (dayOfWeekEntry t).map (fun e =>
          ["今週の" ++ e.kanji ++ "は何日" ++
            (if JDate.lt t c.date then "でしたか？" else "ですか？")]))
  , answer := fun c =>
      (weekTargetDay c.now c.date 0 c.seed c.fresh).bind (fun t =>
        (dayOfWeekEntry t).map (fun e =>
          [joinWithArrow ["What date " ++ (if JDate.lt t c.date then "was" else "is") ++
            " this week\x27s " ++ e.english ++ "?",
            e.english, e.kanji, e.hiragana]])) }

/-- Template 19 (script.js:844): next week's weekday, asking for the date. -/
def qNextWeekDate : Template :=
  { createQuestion := fun c =>
      (weekTargetDay c.now c.date 1 c.seed c.fresh).bind (fun t =>
        (dayOfWeekEntry t).map (fun e =>
          ["来週の" ++ e.kanji ++ "は何日ですか？"]))
  , answer := fun c =>
      (weekTargetDay c.now c.date 1 c.seed c.fresh).bind (fun t =>
        (dayOfWeekEntry t).map (fun e =>
          [joinWithArrow ["What date is next week\x27s " ++ e.english ++ "?",
            e.english, e.kanji, e.hiragana]])) }

/-- Template 20 (script.js:887): last week's date, asking for the
weekday; the label reads `days[targetDay.getDate() - 1]`. -/
def qLastWeekDow : Template :=
  { createQuestion := fun c =>
      (weekTargetDay c.now c.date (-1) c.seed c.fresh).bind (fun t =>
        (jsGet days ((t.day : ℤ) - 1)).map (fun e =>
          ["先週の" ++ e.kanji ++ "は何曜日でしたか？"]))
  , answer := fun c =>
      (weekTargetDay c.now c.date (-1) c.seed c.fresh).bind (fun t =>
        (jsGet days ((t.day : ℤ) - 1)).bind (fun de =>
          (dayOfWeekEntry t).map (fun we =>
            [joinWithArrow ["What day was last week\x27s " ++ de.english ++ "?",
              we.english, we.kanji, we.hiragana]]))) }

/-- Template 21 (script.js:929): this week's date, asking for the
weekday, phrased in the past tense when the target precedes the
reference date. -/
def qThisWeekDow : Template :=
  { createQuestion := fun c =>
      (weekTargetDay c.now c.date 0 c.seed c.fresh).bind (fun t =>
        (jsGet days ((t.day : ℤ) - 1)).map (fun e =>
          ["今週の" ++ e.kanji ++ "は何曜日" ++
            (if JDate.lt t c.date then "でしたか？" else "ですか？")]))
  , answer := fun c =>
      (weekTargetDay c.now c.date 0 c.seed c.fresh).bind (fun t =>
        (jsGet days ((t.day : ℤ) - 1)).bind (fun de =>
          (dayOfWeekEntry t).map (fun we =>
            [joinWithArrow ["What day " ++ (if JDate.lt t c.date then "was" else "is") ++
              " this week\x27s " ++ de.english ++ "?",
              we.english, we.kanji, we.hiragana]]))) }

/-- Template 22 (script.js:974): next week's date, asking for the weekday. -/
def qNextWeekDow : Template :=
  { createQuestion := fun c =>
      (weekTargetDay c.now c.date 1 c.seed c.fresh).bind (fun t =>
        (jsGet days ((t.day : ℤ) - 1)).map (fun e =>
          ["来週の" ++ e.kanji ++ "は何曜日ですか？"]))
  , answer := fun c =>
      (weekTargetDay c.now c.date 1 c.seed c.fresh).bind (fun t =>
        (jsGet days ((t.day : ℤ) - 1)).bind (fun de =>
          (dayOfWeekEntry t).map (fun we =>
            [joinWithArrow ["What day is next week\x27s " ++ de.english ++ "?",
              we.english, we.kanji, we.hiragana]]))) }

/-- Models the `questionGenerator` array (script.js:438-1016): the full
ordered question catalog. -/
def questionGenerator : List Template :=
  [ qDowM2, qDowM1, qDow0, qDowP1, qDowP2
  , qDateM2, qDateM1, qDate0, qDateP1, qDateP2
  , qMonthLast, qMonthThis, qMonthNext
  , qYearLast, qYearThis, qYearNext
  , qLastWeekDate, qThisWeekDate, qNextWeekDate
  , qLastWeekDow, qThisWeekDow, qNextWeekDow ]

/-- Models the JS destructuring swap `[a[i], a[j]] = [a[j], a[i]]`; the
fallback branch is unreachable while both indices are in range. -/
def listSwap {α : Type} (l : List α) (i j : ℕ) : List α :=
  match l[i]?, l[j]? with
  | some a, some b => (l.set i b).set j a
  | _, _ => l

/-- Loop of `shuffle` (script.js:189-199); the counter is
`currentIndex`, and `rs k` is the `Math.random()` draw made while
`currentIndex = k`. -/
def shuffleGo {α : Type} (rs : ℕ → ℚ) : ℕ → List α → List α
  | 0, l => l
  | ci + 1, l => shuffleGo rs ci (listSwap l ci (⌊rs (ci + 1) * ((ci : ℚ) + 1)⌋).toNat)

/-- Models `shuffle(array)` (script.js:183): Fisher-Yates on a copy. -/
def shuffle {α : Type} (l : List α) (rs : ℕ → ℚ) : List α :=
  shuffleGo rs l.length l

/-- Day-selection core of `generateRandomDate` (script.js:1220-1234),
split out for analysis: drop the first and last week rows of the month's
calendar, pad by `max(2 - realDays, 0)` on both sides, then pick a
random entry of the remaining flattened rows with the draw `s3`. -/
def pickFromCalendar (year month : ℕ) (s3 : ℚ) : Option JDate :=
  let calendar := getWeeks year month
  match calendar.head?, calendar.getLast? with
  | some firstWeek, some lastWeek =>
    let topReal := (firstWeek.filterMap id).length
    let bottomReal := (lastWeek.filterMap id).length
    let daysMiddle := ((calendar.drop 1).dropLast).flatten
    let topPadding : ℤ := max (2 - (topReal : ℤ)) 0
    let bottomPadding : ℤ := max (2 - (bottomReal : ℤ)) 0
    let day := getRandomIntQ topPadding ((daysMiddle.length : ℤ) - bottomPadding - 1) s3
    (jsGet daysMiddle day).bind id
  | _, _ => none

/-- Models `generateRandomDate` (script.js:1214): a random year in
[2019, 2049] and month in [0, 11], then the padded middle-row selection.
`s1, s2, s3` are the three `Math.random()` draws. -/
def generateRandomDate (s1 s2 s3 : ℚ) : Option JDate :=
  pickFromCalendar (getRandomIntQ 2019 2049 s1).toNat (getRandomIntQ 0 11 s2).toNat s3

/-- Models a JS array-with-holes: `none` marks a hole; `Array(n)` is `n`
holes. -/
def jsArrayOfLength (n : ℕ) : List (Option ℚ) :=
  List.replicate n none

/-- Models `seeds = Array(currentQuestions.length).map(() =>
Math.random())` (script.js:1321).  `Array.prototype.map` does not invoke
its callback on holes and keeps them as holes; `draw i` is the value the
callback would produce at index `i` if it were invoked. -/
def newTestSeeds (n : ℕ) (draw : ℕ → ℚ) : List (Option ℚ) :=
  (jsArrayOfLength n).mapIdx (fun i o => o.map (fun _ => draw i))

/-- Digit glyph table of the spec's logographic place-value rules
(spec 4.2); digits outside 1..9 have no glyph. -/
def kanjiDigit (n : ℤ) : String :=
  if n = 1 then "一"
  else if n = 2 then "二"
  else if n = 3 then "三"
  else if n = 4 then "四"
  else if n = 5 then "五"
  else if n = 6 then "六"
  else if n = 7 then "七"
  else if n = 8 then "八"
  else if n = 9 then "九"
  else ""

/-- Digit reading table of the spec's phonetic place-value rules
(spec 4.2). -/
def hiraganaDigit (n : ℤ) : String :=
  if n = 1 then "いち"
  else if n = 2 then "に"
  else if n = 3 then "さん"
  else if n = 4 then "よん"
  else if n = 5 then "ご"
  else if n = 6 then "ろく"
  else if n = 7 then "なな"
  else if n = 8 then "はち"
  else if n = 9 then "きゅう"
  else ""

/-- Spec rule, logographic thousands place: digit 1 writes only the
place glyph, digits greater than 1 prefix the digit glyph. -/
def kanjiThousandsRule (t : ℤ) : String :=
  if t = 0 then "" else if t = 1 then "千" else kanjiDigit t ++ "千"

/-- Spec rule, logographic hundreds place. -/
def kanjiHundredsRule (t : ℤ) : String :=
  if t = 0 then "" else if t = 1 then "百" else kanjiDigit t ++ "百"

/-- Spec rule, logographic tens place. -/
def kanjiTensRule (t : ℤ) : String :=
  if t = 0 then "" else if t = 1 then "十" else kanjiDigit t ++ "十"

/-- Spec rule, logographic ones place: the bare digit glyph. -/
def kanjiOnesRule (t : ℤ) : String :=
  if t = 0 then "" else kanjiDigit t

/-- Transcription of the spec's logographic place-value rules (spec 4.2,
8): zero maps to the special literal, otherwise the four place parts are
concatenated.  Comparison side of the refinement theorem for `toKanji`. -/
def kanjiPlaceValueRules (n : ℤ) : String :=
  if n = 0 then "零"
  else
    "" ++ kanjiThousandsRule (n.fdiv 1000) ++ kanjiHundredsRule ((n.tmod 1000).fdiv 100) ++
      kanjiTensRule ((n.tmod 100).fdiv 10) ++ kanjiOnesRule (n.tmod 10)

/-- Spec rule, phonetic thousands place: digit 1 unprefixed, irregular
contractions exactly for digits 3 and 8. -/
def hiraganaThousandsRule (t : ℤ) : String :=
  if t = 0 then ""
  else if t = 1 then "せん"
  else if t = 3 then "さんぜん"
  else if t = 8 then "はっせん"
  else hiraganaDigit t ++ "せん"

/-- Spec rule, phonetic hundreds place: digit 1 unprefixed, irregular
contractions exactly for digits 3, 6 and 8. -/
def hiraganaHundredsRule (t : ℤ) : String :=
  if t = 0 then ""
  else if t = 1 then "ひゃく"
  else if t = 3 then "さんびゃく"
  else if t = 6 then "ろっぴゃく"
  else if t = 8 then "はっぴゃく"
  else hiraganaDigit t ++ "ひゃく"

/-- Spec rule, phonetic tens place: digit 1 unprefixed, no contractions. -/
def hiraganaTensRule (t : ℤ) : String :=
  if t = 0 then "" else if t = 1 then "じゅう" else hiraganaDigit t ++ "じゅう"

/-- Spec rule, phonetic ones place: the plain digit reading. -/
def hiraganaOnesRule (t : ℤ) : String :=
  if t = 0 then "" else hiraganaDigit t

/-- Transcription of the spec's phonetic place-value rules (spec 4.2, 8).
Comparison side of the refinement theorem for `toHiragana`. -/
def hiraganaPlaceValueRules (n : ℤ) : String :=
  if n = 0 then "れい"
  else
    "" ++ hiraganaThousandsRule (n.fdiv 1000) ++ hiraganaHundredsRule ((n.tmod 1000).fdiv 100) ++
      hiraganaTensRule ((n.tmod 100).fdiv 10) ++ hiraganaOnesRule (n.tmod 10)

/-- Shape-level counterpart of the non-empty-slot concatenation of the
week grid: row order, slot order inside a row. -/
def weeksNFlat (fd nd : ℕ) : List ℕ :=
  ((weeksN fd nd).map (fun r => r.filterMap id)).flatten

/-- Shape-level counterpart of `calendar.slice(1, calendar.length - 1).flat()`
in `generateRandomDate`. -/
def middleFlatN (fd nd : ℕ) : List (Option ℕ) :=
  (((weeksN fd nd).drop 1).dropLast).flatten

/-- Shape-level counterpart of the front padding
`Math.max(2 - topPadding, 0)` of `generateRandomDate`. -/
def padTopN (fd nd : ℕ) : ℤ :=
  max (2 - ((((weeksN fd nd).headD []).filterMap id).length : ℤ)) 0

/-- Shape-level counterpart of the back padding
`Math.max(2 - bottomPadding, 0)` of `generateRandomDate`. -/
def padBotN (fd nd : ℕ) : ℤ :=
  max (2 - ((((weeksN fd nd).getLastD []).filterMap id).length : ℤ)) 0

/-- Shape-level counterpart of the `findIndex` week-row lookup, keyed by
a bare day number. -/
def rowIdxN (fd nd d : ℕ) : ℤ :=
  jsFindIndex
    (fun row => row.any (fun o =>
      match o with
      | some dd => dd == d
      | none => false))
    (weeksN fd nd)

/-- Decidable check for one day slot of the shape-level grid: a filled
slot holds a day number of weekday equal to its slot index. -/
def slotCheck (fd nd : ℕ) : Bool :=
  (weeksN fd nd).all (fun row =>
    row.length == 7 &&
      (List.range 7).all (fun k =>
        (row.getD k none).all (fun d => decide (1 ≤ d) && ((fd + (d - 1)) % 7 == k))))

/-- Decidable check for one candidate index of the padded middle range
of `generateRandomDate`: the slot holds a real day, that day has a
two-day margin inside the month, and its week row is neither the first
nor the last row of the grid. -/
def middleCheck (fd nd k : ℕ) : Bool :=
  match (middleFlatN fd nd).getD k none with
  | some d =>
      decide (3 ≤ d) && decide (d + 2 ≤ nd) && decide (1 ≤ rowIdxN fd nd d) &&
        decide (rowIdxN fd nd d + 2 ≤ ((weeksN fd nd).length : ℤ))
  | none => false

/-- Decidable check that `middleCheck` holds for every index the padded
random draw of `generateRandomDate` can produce. -/
def middleAll (fd nd : ℕ) : Bool :=
  (List.range 28).all (fun k =>
    !(decide (padTopN fd nd ≤ (k : ℤ)) &&
        decide ((k : ℤ) ≤ ((middleFlatN fd nd).length : ℤ) - padBotN fd nd - 1)) ||
      middleCheck fd nd k)

/-! Helper lemmas. -/

theorem getRandomIntQ_mem (lo hi : ℤ) (s : ℚ) (h0 : 0 ≤ s) (h1 : s < 1) (hle : lo ≤ hi) :
    lo ≤ getRandomIntQ lo hi s ∧ getRandomIntQ lo hi s ≤ hi := by
  unfold getRandomIntQ
  have hc : (lo : ℚ) ≤ (hi : ℚ) := by exact_mod_cast hle
  have hn : (0 : ℚ) < (hi : ℚ) - (lo : ℚ) + 1 := by linarith
  constructor
  · have hms : (0 : ℚ) ≤ s * ((hi : ℚ) - (lo : ℚ) + 1) := mul_nonneg h0 hn.le
    have hf : (0 : ℤ) ≤ ⌊s * ((hi : ℚ) - (lo : ℚ) + 1)⌋ := Int.floor_nonneg.mpr hms
    omega
  · have hlt : s * ((hi : ℚ) - (lo : ℚ) + 1) < (hi : ℚ) - (lo : ℚ) + 1 := by
      have := mul_lt_mul_of_pos_right h1 hn
      simpa using this
    have hf : ⌊s * ((hi : ℚ) - (lo : ℚ) + 1)⌋ < hi - lo + 1 := by
      apply Int.floor_lt.mpr
      push_cast
      exact hlt
    omega

theorem newTestSeeds_eq_replicate :
    ∀ (n : ℕ) (draw : ℕ → ℚ), newTestSeeds n draw = List.replicate n none := by
  intro n
  unfold newTestSeeds jsArrayOfLength
  induction n with
  | zero => intro draw; rfl
  | succ m ih =>
    intro draw
    rw [List.replicate_succ, List.mapIdx_cons]
    simp only [Option.map_none']
    exact congrArg _ (ih (fun i => draw (i + 1)))

theorem set_cons_perm {α : Type} :
    ∀ (l : List α) (k : ℕ) (x b : α),
      l[k]? = some b → (b :: l.set k x).Perm (x :: l) := by
  intro l
  induction l with
  | nil => intro k x b h; simp at h
  | cons y t ih =>
    intro k x b h
    cases k with
    | zero =>
      simp only [List.getElem?_cons_zero, Option.some.injEq] at h
      subst h
      rw [List.set_cons_zero]
      exact List.Perm.swap x y t
    | succ k =>
      simp only [List.getElem?_cons_succ] at h
      rw [List.set_cons_succ]
      exact (List.Perm.swap y b _).trans (((ih k x b h).cons y).trans (List.Perm.swap x y t))

theorem set_set_perm {α : Type} :
    ∀ (l : List α) (i j : ℕ) (a b : α),
      l[i]? = some a → l[j]? = some b → ((l.set i b).set j a).Perm l := by
  intro l
  induction l with
  | nil => intro i j a b hi _; simp at hi
  | cons y t ih =>
    intro i j a b hi hj
    cases i with
    | zero =>
      simp only [List.getElem?_cons_zero, Option.some.injEq] at hi
      subst hi
      cases j with
      | zero =>
        rw [List.set_cons_zero, List.set_cons_zero]
      | succ j =>
        simp only [List.getElem?_cons_succ] at hj
        rw [List.set_cons_zero, List.set_cons_succ]
        exact set_cons_perm t j _ _ hj
    | succ i =>
      simp only [List.getElem?_cons_succ] at hi
      cases j with
      | zero =>
        simp only [List.getElem?_cons_zero, Option.some.injEq] at hj
        subst hj
        rw [List.set_cons_succ, List.set_cons_zero]
        exact set_cons_perm t i _ _ hi
      | succ j =>
        simp only [List.getElem?_cons_succ] at hj
        rw [List.set_cons_succ, List.set_cons_succ]
        exact (ih i j a b hi hj).cons y

theorem listSwap_perm {α : Type} (l : List α) (i j : ℕ) : (listSwap l i j).Perm l := by
  unfold listSwap
  split
  · next a b hi hj => exact set_set_perm l i j a b hi hj
  · exact List.Perm.refl l

theorem shuffleGo_perm {α : Type} (rs : ℕ → ℚ) :
    ∀ (ci : ℕ) (l : List α), (shuffleGo rs ci l).Perm l := by
  intro ci
  induction ci with
  | zero => intro l; exact List.Perm.refl l
  | succ c ih =>
    intro l
    rw [shuffleGo]
    exact (ih _).trans (listSwap_perm _ _ _)

theorem jsGet_isSome {α : Type} (l : List α) (i : ℤ) (h0 : 0 ≤ i)
    (hl : i.toNat < l.length) : (jsGet l i).isSome = true := by
  unfold jsGet
  rw [if_neg (by omega), List.getElem?_eq_getElem hl]
  rfl

theorem kanji_thousands_step (t : ℤ) (h0 : 0 ≤ t) (h9 : t ≤ 9) : ∀ k : String,
    (if t > 0 then k ++ ((if t = 1 then "" else jsStr (kanjiSubs t)) ++ "千") else k)
      = k ++ kanjiThousandsRule t := by
  intro k
  interval_cases t <;>
    simp [kanjiThousandsRule, kanjiSubs, kanjiDigit, jsStr, String.append_empty]

theorem kanji_hundreds_step (t : ℤ) (h0 : 0 ≤ t) (h9 : t ≤ 9) : ∀ k : String,
    (if t > 0 then k ++ ((if t = 1 then "" else jsStr (kanjiSubs t)) ++ "百") else k)
      = k ++ kanjiHundredsRule t := by
  intro k
  interval_cases t <;>
    simp [kanjiHundredsRule, kanjiSubs, kanjiDigit, jsStr, String.append_empty]

theorem kanji_tens_step (t : ℤ) (h0 : 0 ≤ t) (h9 : t ≤ 9) : ∀ k : String,
    (if t > 0 then k ++ ((if t = 1 then "" else jsStr (kanjiSubs t)) ++ "十") else k)
      = k ++ kanjiTensRule t := by
  intro k
  interval_cases t <;>
    simp [kanjiTensRule, kanjiSubs, kanjiDigit, jsStr, String.append_empty]

theorem kanji_ones_step (t : ℤ) (h0 : 0 ≤ t) (h9 : t ≤ 9) : ∀ k : String,
    (if t > 0 then k ++ jsStr (kanjiSubs t) else k) = k ++ kanjiOnesRule t := by
  intro k
  interval_cases t <;>
    simp [kanjiOnesRule, kanjiSubs, kanjiDigit, jsStr, String.append_empty]

theorem hiragana_thousands_step (t : ℤ) (h0 : 0 ≤ t) (h9 : t ≤ 9) : ∀ k : String,
    (if t > 0 then
        k ++ (if t = 1 then "せん" else if t = 3 then "さんぜん"
              else if t = 8 then "はっせん" else jsStr (hiraganaSubs t) ++ "せん")
      else k) = k ++ hiraganaThousandsRule t := by
  intro k
  interval_cases t <;>
    simp [hiraganaThousandsRule, hiraganaSubs, hiraganaDigit, jsStr, String.append_empty]

theorem hiragana_hundreds_step (t : ℤ) (h0 : 0 ≤ t) (h9 : t ≤ 9) : ∀ k : String,
    (if t > 0 then
        k ++ (if t = 1 then "ひゃく" else if t = 3 then "さんびゃく"
              else if t = 6 then "ろっぴゃく" else if t = 8 then "はっぴゃく"
              else jsStr (hiraganaSubs t) ++ "ひゃく")
      else k) = k ++ hiraganaHundredsRule t := by
  intro k
  interval_cases t <;>
    simp [hiraganaHundredsRule, hiraganaSubs, hiraganaDigit, jsStr, String.append_empty]

theorem hiragana_tens_step (t : ℤ) (h0 : 0 ≤ t) (h9 : t ≤ 9) : ∀ k : String,
    (if t > 0 then k ++ ((if t = 1 then "" else jsStr (hiraganaSubs t)) ++ "じゅう") else k)
      = k ++ hiraganaTensRule t := by
  intro k
  interval_cases t <;>
    simp [hiraganaTensRule, hiraganaSubs, hiraganaDigit, jsStr, String.append_empty]

theorem hiragana_ones_step (t : ℤ) (h0 : 0 ≤ t) (h9 : t ≤ 9) : ∀ k : String,
    (if t > 0 then k ++ jsStr (hiraganaSubs t) else k) = k ++ hiraganaOnesRule t := by
  intro k
  interval_cases t <;>
    simp [hiraganaOnesRule, hiraganaSubs, hiraganaDigit, jsStr, String.append_empty]

theorem digit_bounds (n : ℤ) (h0 : 0 ≤ n) (h1 : n ≤ 9999) :
    (0 ≤ n.fdiv 1000 ∧ n.fdiv 1000 ≤ 9)
    ∧ (0 ≤ (n.tmod 1000).fdiv 100 ∧ (n.tmod 1000).fdiv 100 ≤ 9)
    ∧ (0 ≤ (n.tmod 100).fdiv 10 ∧ (n.tmod 100).fdiv 10 ≤ 9)
    ∧ (0 ≤ n.tmod 10 ∧ n.tmod 10 ≤ 9) := by
  have e1 : n.fdiv 1000 = n / 1000 := Int.fdiv_eq_ediv _ (by norm_num)
  have e2 : n.tmod 1000 = n % 1000 := Int.tmod_eq_emod h0 (by norm_num)
  have e3 : n.tmod 100 = n % 100 := Int.tmod_eq_emod h0 (by norm_num)
  have e4 : n.tmod 10 = n % 10 := Int.tmod_eq_emod h0 (by norm_num)
  have e5 : (n % 1000).fdiv 100 = (n % 1000) / 100 := Int.fdiv_eq_ediv _ (by norm_num)
  have e6 : (n % 100).fdiv 10 = (n % 100) / 10 := Int.fdiv_eq_ediv _ (by norm_num)
  rw [e1, e2, e3, e4, e5, e6]
  omega

theorem toKanji_rules (n : ℤ) (h0 : 0 ≤ n) (h1 : n ≤ 9999) :
    toKanji n = kanjiPlaceValueRules n := by
  obtain ⟨⟨a1, a2⟩, ⟨b1, b2⟩, ⟨c1, c2⟩, ⟨d1, d2⟩⟩ := digit_bounds n h0 h1
  by_cases hz : n = 0
  · subst hz; rfl
  · unfold toKanji kanjiPlaceValueRules
    rw [if_neg hz, if_neg hz]
    simp only [kanji_thousands_step _ a1 a2, kanji_hundreds_step _ b1 b2,
      kanji_tens_step _ c1 c2, kanji_ones_step _ d1 d2]

theorem toHiragana_rules (n : ℤ) (h0 : 0 ≤ n) (h1 : n ≤ 9999) :
    toHiragana n = hiraganaPlaceValueRules n := by
  obtain ⟨⟨a1, a2⟩, ⟨b1, b2⟩, ⟨c1, c2⟩, ⟨d1, d2⟩⟩ := digit_bounds n h0 h1
  by_cases hz : n = 0
  · subst hz; rfl
  · unfold toHiragana hiraganaPlaceValueRules
    rw [if_neg hz, if_neg hz]
    simp only [hiragana_thousands_step _ a1 a2, hiragana_hundreds_step _ b1 b2,
      hiragana_tens_step _ c1 c2, hiragana_ones_step _ d1 d2]



/-! Calendar bridge lemmas: the Date-level grid is the shape-level grid
with each day number mapped to its `JDate`. -/

theorem weeksGo_map {α β : Type} (f : α → β) (wdA : α → ℕ) (wdB : β → ℕ) :
    ∀ l : List α, (∀ a ∈ l, wdB (f a) = wdA a) →
      ∀ cur : List (Option α),
        weeksGo wdB (l.map f) (cur.map (Option.map f))
          = (weeksGo wdA l cur).map (List.map (Option.map f)) := by
  intro l
  induction l with
  | nil => intro _ cur; rfl
  | cons d rest ih =>
    intro hw cur
    have hd : wdB (f d) = wdA d := hw d (List.mem_cons_self d rest)
    have hset : (cur.map (Option.map f)).set (wdB (f d)) (some (f d))
        = (cur.set (wdA d) (some d)).map (Option.map f) := by
      rw [hd, List.map_set]
      rfl
    rw [List.map_cons]
    simp only [weeksGo]
    have hemp : (rest.map f).isEmpty = rest.isEmpty := by cases rest <;> rfl
    rw [hemp, hset, hd]
    by_cases hre : rest.isEmpty = true
    · rw [if_pos hre, if_pos hre]
      rfl
    · rw [if_neg hre, if_neg hre]
      by_cases h6 : (wdA d == 6) = true
      · rw [if_pos h6, if_pos h6, List.map_cons]
        exact congrArg _ (ih (fun a ha => hw a (List.mem_cons_of_mem d ha)) emptyWeek)
      · rw [if_neg h6, if_neg h6]
        exact ih (fun a ha => hw a (List.mem_cons_of_mem d ha)) (cur.set (wdA d) (some d))

theorem dayOfWeek_shift (y m d : ℕ) (hd : 1 ≤ d) :
    dayOfWeek y m d = (firstDow y m + (d - 1)) % 7 := by
  unfold firstDow dayOfWeek serialDay
  generalize (365 * (y - 1) + leapDaysBefore y + cumDaysBefore m +
    (if 2 ≤ m && isLeap y then 1 else 0)) = c
  omega

theorem monthDates_eq (y m : ℕ) :
    monthDates y m
      = (List.range' 1 (daysInMonth y m)).map (fun d => (⟨y, m, d⟩ : JDate)) := by
  unfold monthDates
  rw [List.range'_eq_map_range, List.map_map]
  exact List.map_congr_left (fun a _ => by simp [Nat.add_comm])

theorem getWeeks_eq (y m : ℕ) :
    getWeeks y m
      = (weeksN (firstDow y m) (daysInMonth y m)).map
          (List.map (Option.map (fun d => (⟨y, m, d⟩ : JDate)))) := by
  unfold getWeeks weeksN
  rw [show monthDates y m
      = (List.range' 1 (daysInMonth y m)).map (fun d => (⟨y, m, d⟩ : JDate))
    from monthDates_eq y m]
  exact weeksGo_map _ _ _ _
    (fun d hd => by
      show dayOfWeek y m d = (firstDow y m + (d - 1)) % 7
      exact dayOfWeek_shift y m d (List.mem_range'_1.mp hd).1)
    emptyWeek

theorem jsFindIndex_map {α β : Type} (f : α → β) (p : β → Bool) :
    ∀ l : List α, jsFindIndex p (l.map f) = jsFindIndex (fun a => p (f a)) l := by
  intro l
  induction l with
  | nil => rfl
  | cons x xs ih => simp only [List.map_cons, jsFindIndex, ih]

theorem row_pred_map (y m dday : ℕ) (row : List (Option ℕ)) :
    (row.map (Option.map (fun d => (⟨y, m, d⟩ : JDate)))).any (fun day =>
        match day with
        | some dd => dd.day == dday
        | none => false)
      = row.any (fun o =>
        match o with
        | some dd => dd == dday
        | none => false) := by
  induction row with
  | nil => rfl
  | cons o rest ih => cases o <;> simp only [List.map_cons, List.any_cons, ih, Option.map_some', Option.map_none']

theorem currentWeekIndex_map (fd nd y m : ℕ) (ref : JDate) :
    currentWeekIndex
        ((weeksN fd nd).map (List.map (Option.map (fun d => (⟨y, m, d⟩ : JDate))))) ref
      = rowIdxN fd nd ref.day := by
  unfold currentWeekIndex rowIdxN
  rw [jsFindIndex_map]
  congr 1
  funext row
  exact row_pred_map y m ref.day row

theorem currentWeekIndex_getWeeks (y m d : ℕ) :
    currentWeekIndex (getWeeks y m) ⟨y, m, d⟩
      = rowIdxN (firstDow y m) (daysInMonth y m) d := by
  rw [getWeeks_eq]
  exact currentWeekIndex_map _ _ y m ⟨y, m, d⟩

theorem getWeeks_length (y m : ℕ) :
    (getWeeks y m).length = (weeksN (firstDow y m) (daysInMonth y m)).length := by
  rw [getWeeks_eq, List.length_map]

theorem filterMap_id_map {α β : Type} (f : α → β) :
    ∀ row : List (Option α),
      (row.map (Option.map f)).filterMap id = (row.filterMap id).map f := by
  intro row
  induction row with
  | nil => rfl
  | cons o rest ih => cases o <;> simp [ih]

theorem jsGet_map {α β : Type} (f : α → β) (l : List α) (i : ℤ) :
    jsGet (l.map f) i = (jsGet l i).map f := by
  unfold jsGet
  split
  · rfl
  · rw [List.getElem?_map]

theorem jsGet_mem {α : Type} (l : List α) (i : ℤ) (x : α) (h : jsGet l i = some x) :
    x ∈ l := by
  unfold jsGet at h
  split at h
  · cases h
  · exact List.getElem?_mem h

theorem isSome_map_jsGet {α β : Type} (l : List α) (i : ℤ) (f : α → β)
    (h0 : 0 ≤ i) (hl : i.toNat < l.length) : ((jsGet l i).map f).isSome = true := by
  obtain ⟨v, hv⟩ := Option.isSome_iff_exists.mp (jsGet_isSome l i h0 hl)
  rw [hv]
  rfl

theorem daysInMonth_bounds (y m : ℕ) (hm : m < 12) :
    28 ≤ daysInMonth y m ∧ daysInMonth y m ≤ 31 := by
  interval_cases m <;> simp only [daysInMonth] <;>
    first
      | omega
      | (split <;> omega)

theorem firstDow_lt (y m : ℕ) : firstDow y m < 7 :=
  Nat.mod_lt _ (by norm_num)

set_option maxRecDepth 8000 in
theorem weeksN_finite : ∀ fd < 7, ∀ j < 4,
    weeksNFlat fd (28 + j) = List.range' 1 (28 + j)
    ∧ 4 ≤ (weeksN fd (28 + j)).length ∧ (weeksN fd (28 + j)).length ≤ 6
    ∧ slotCheck fd (28 + j) = true
    ∧ (middleFlatN fd (28 + j)).length + 14 = 7 * (weeksN fd (28 + j)).length
    ∧ padTopN fd (28 + j) ≤ ((middleFlatN fd (28 + j)).length : ℤ) - padBotN fd (28 + j) - 1
    ∧ middleAll fd (28 + j) = true := by
  decide

theorem middleAll_decode (fd nd : ℕ) (h : middleAll fd nd = true) (k : ℕ) (hk : k < 28)
    (h1 : padTopN fd nd ≤ (k : ℤ))
    (h2 : (k : ℤ) ≤ ((middleFlatN fd nd).length : ℤ) - padBotN fd nd - 1) :
    middleCheck fd nd k = true := by
  unfold middleAll at h
  rw [List.all_eq_true] at h
  have hh := h k (List.mem_range.mpr hk)
  simp only [decide_eq_true h1, decide_eq_true h2, Bool.and_self, Bool.not_true,
    Bool.false_or] at hh
  exact hh

theorem middleCheck_decode (fd nd k : ℕ) (h : middleCheck fd nd k = true) :
    ∃ d : ℕ, (middleFlatN fd nd)[k]? = some (some d)
      ∧ 3 ≤ d ∧ d + 2 ≤ nd
      ∧ 1 ≤ rowIdxN fd nd d
      ∧ rowIdxN fd nd d + 2 ≤ ((weeksN fd nd).length : ℤ) := by
  unfold middleCheck at h
  rcases hx : (middleFlatN fd nd).getD k none with _ | d
  · rw [hx] at h
    simp at h
  · rw [hx] at h
    simp only [Bool.and_eq_true, decide_eq_true_eq] at h
    refine ⟨d, ?_, h.1.1.1, h.1.1.2, by omega, by omega⟩
    rw [List.getD_eq_getElem?_getD] at hx
    rcases hy : (middleFlatN fd nd)[k]? with _ | o
    · rw [hy] at hx
      simp at hx
    · rw [hy] at hx
      simp only [Option.getD_some] at hx
      rw [hx]

theorem slotCheck_decode (fd nd : ℕ) (h : slotCheck fd nd = true) :
    ∀ row ∈ weeksN fd nd, row.length = 7
      ∧ ∀ k : ℕ, k < 7 → ∀ d : ℕ, row[k]? = some (some d) →
          1 ≤ d ∧ (fd + (d - 1)) % 7 = k := by
  unfold slotCheck at h
  rw [List.all_eq_true] at h
  intro row hrow
  have hr := h row hrow
  rw [Bool.and_eq_true] at hr
  refine ⟨by simpa using hr.1, ?_⟩
  intro k hk d hkd
  have h2 := (List.all_eq_true.mp hr.2) k (List.mem_range.mpr hk)
  rw [List.getD_eq_getElem?_getD, hkd] at h2
  simp only [Option.getD_some, Option.all_some, Bool.and_eq_true, decide_eq_true_eq,
    beq_iff_eq] at h2
  exact h2

theorem getWeeks_complete (y m : ℕ) (hm : m < 12) :
    (getWeeks y m).flatMap (fun row => row.filterMap id) = monthDates y m
    ∧ ∀ row ∈ getWeeks y m, row.length = 7
        ∧ ∀ k : ℕ, k < 7 → ∀ dt : JDate, row[k]? = some (some dt) → dt.getDay = k := by
  have hfd : firstDow y m < 7 := firstDow_lt y m
  have hnd := daysInMonth_bounds y m hm
  have hfin := weeksN_finite (firstDow y m) hfd (daysInMonth y m - 28) (by omega)
  rw [show 28 + (daysInMonth y m - 28) = daysInMonth y m by omega] at hfin
  obtain ⟨hflat, _, _, hslot, _, _, _⟩ := hfin
  constructor
  · rw [getWeeks_eq y m, List.flatMap_def, List.map_map]
    have hcongr : ((fun row => List.filterMap id row) ∘
          (List.map (Option.map (fun d => (⟨y, m, d⟩ : JDate)))))
        = (List.map (fun d => (⟨y, m, d⟩ : JDate))) ∘ (fun row => row.filterMap id) := by
      funext row
      exact filterMap_id_map _ row
    rw [hcongr, ← List.map_map, ← List.map_flatten]
    rw [show ((weeksN (firstDow y m) (daysInMonth y m)).map
        (fun r => r.filterMap id)).flatten = weeksNFlat (firstDow y m) (daysInMonth y m)
      from rfl]
    rw [hflat, monthDates_eq]
  · intro row hrow
    rw [getWeeks_eq y m] at hrow
    obtain ⟨rowN, hrN, hreq⟩ := List.mem_map.mp hrow
    have hs := slotCheck_decode _ _ hslot rowN hrN
    constructor
    · rw [← hreq, List.length_map]
      exact hs.1
    · intro k hk dt hkd
      rw [← hreq, List.getElem?_map] at hkd
      rcases ho : rowN[k]? with _ | o
      · rw [ho] at hkd
        simp at hkd
      · rw [ho] at hkd
        cases o with
        | none => simp at hkd
        | some d =>
          simp only [Option.map_some', Option.some.injEq] at hkd
          have hp := hs.2 k hk d ho
          rw [← hkd]
          show dayOfWeek y m d = k
          rw [dayOfWeek_shift y m d hp.1]
          exact hp.2

theorem weekTargetDay_mem (now ref : JDate) (off : ℤ) (seed : Option ℚ) (fresh : ℚ)
    (t : JDate) (hm : now.month < 12)
    (h : weekTargetDay now ref off seed fresh = some t) :
    t.year = now.year ∧ t.month = now.month ∧ 1 ≤ t.day
      ∧ t.day ≤ daysInMonth now.year now.month := by
  simp only [weekTargetDay] at h
  rcases hw : jsGet (getWeeks now.year now.month)
      (currentWeekIndex (getWeeks now.year now.month) ref + off) with _ | week
  · rw [hw] at h
    simp at h
  · rw [hw] at h
    change randomFromList (week.filterMap id) seed fresh = some t at h
    have hmem : t ∈ week.filterMap id := by
      unfold randomFromList jsGet at h
      by_cases hneg : getRandomIntOpt 0 (((week.filterMap id).length : ℤ) - 1) seed fresh < 0
      · rw [if_pos hneg] at h
        cases h
      · rw [if_neg hneg] at h
        exact List.getElem?_mem h
    have hwk : week ∈ getWeeks now.year now.month := jsGet_mem _ _ _ hw
    have htm : t ∈ monthDates now.year now.month := by
      rw [← (getWeeks_complete now.year now.month hm).1]
      exact List.mem_flatMap.mpr ⟨week, hwk, hmem⟩
    unfold monthDates at htm
    obtain ⟨i, hi, hti⟩ := List.mem_map.mp htm
    rw [List.mem_range] at hi
    rw [← hti]
    exact ⟨rfl, rfl, by show 1 ≤ i + 1; omega,
      by show i + 1 ≤ daysInMonth now.year now.month; omega⟩

theorem pickFromCalendar_spec (y m : ℕ) (hm : m < 12) (s3 : ℚ)
    (h30 : 0 ≤ s3) (h31 : s3 < 1) :
    ∃ d : ℕ, pickFromCalendar y m s3 = some ⟨y, m, d⟩
      ∧ 3 ≤ d ∧ d + 2 ≤ daysInMonth y m
      ∧ 1 ≤ rowIdxN (firstDow y m) (daysInMonth y m) d
      ∧ rowIdxN (firstDow y m) (daysInMonth y m) d + 2
          ≤ ((weeksN (firstDow y m) (daysInMonth y m)).length : ℤ) := by
  set fd := firstDow y m with hfddef
  set nd := daysInMonth y m with hnddef
  have hfd : fd < 7 := firstDow_lt y m
  have hnd : 28 ≤ nd ∧ nd ≤ 31 := daysInMonth_bounds y m hm
  have hfin := weeksN_finite fd hfd (nd - 28) (by omega)
  rw [show 28 + (nd - 28) = nd by omega] at hfin
  obtain ⟨_, hL4, hL6, _, hmidlen, hpadle, hallm⟩ := hfin
  have hne : weeksN fd nd ≠ [] := by
    intro hh
    rw [hh] at hL4
    simp at hL4
  obtain ⟨w0, hw0⟩ : ∃ w0, (weeksN fd nd).head? = some w0 := by
    rcases hh : (weeksN fd nd).head? with _ | w0
    · exact absurd (List.head?_eq_none_iff.mp hh) hne
    · exact ⟨w0, rfl⟩
  obtain ⟨wL, hwL⟩ : ∃ wL, (weeksN fd nd).getLast? = some wL := by
    rcases hh : (weeksN fd nd).getLast? with _ | wL
    · exact absurd (List.getLast?_eq_none_iff.mp hh) hne
    · exact ⟨wL, rfl⟩
  have hptop : padTopN fd nd = max (2 - ((w0.filterMap id).length : ℤ)) 0 := by
    unfold padTopN
    rw [List.headD_eq_head?_getD, hw0]
    rfl
  have hpbot : padBotN fd nd = max (2 - ((wL.filterMap id).length : ℤ)) 0 := by
    unfold padBotN
    rw [List.getLastD_eq_getLast?, hwL]
    rfl
  set lo := padTopN fd nd with hlo
  set hi := ((middleFlatN fd nd).length : ℤ) - padBotN fd nd - 1 with hhi
  have hlo0 : (0 : ℤ) ≤ lo := le_max_right _ _
  have hbot0 : (0 : ℤ) ≤ padBotN fd nd := le_max_right _ _
  have hmem := getRandomIntQ_mem lo hi s3 h30 h31 hpadle
  set day := getRandomIntQ lo hi s3 with hday
  have hlen28 : (middleFlatN fd nd).length ≤ 28 := by omega
  have hday27 : day ≤ 27 := by omega
  set k := day.toNat with hkk
  have hdayk : (k : ℤ) = day := Int.toNat_of_nonneg (by omega)
  have hmc : middleCheck fd nd k = true := by
    apply middleAll_decode fd nd hallm k (by omega)
    · rw [hdayk]
      exact hmem.1
    · rw [hdayk]
      exact hmem.2
  obtain ⟨d, hd1, hd3, hdn, hr1, hr2⟩ := middleCheck_decode fd nd k hmc
  refine ⟨d, ?_, hd3, hdn, hr1, hr2⟩
  simp only [pickFromCalendar]
  rw [getWeeks_eq y m, ← hfddef, ← hnddef]
  rw [List.head?_map, List.getLast?_map, hw0, hwL]
  simp only [Option.map_some']
  rw [← List.map_drop, ← List.map_dropLast, ← List.map_flatten]
  rw [show (((weeksN fd nd).drop 1).dropLast).flatten = middleFlatN fd nd from rfl]
  rw [filterMap_id_map, filterMap_id_map, List.length_map, List.length_map, List.length_map]
  rw [← hptop, ← hpbot, ← hhi, ← hday]
  rw [jsGet_map]
  have hjg : jsGet (middleFlatN fd nd) day = some (some d) := by
    unfold jsGet
    rw [if_neg (by omega)]
    rw [show day.toNat = k from rfl]
    exact hd1
  rw [hjg]
  rfl

/-! Claim theorems. -/

/-- C6: for every integer n in [0, 9999] the numeral localizer follows
the place-value rules of the spec exactly, in both scripts, including
the irregular phonetic contractions (thousands 3, 8; hundreds 3, 6, 8;
digit 1 unprefixed in the thousands/hundreds/tens places), and the
spec's table of known values is produced exactly. -/
theorem numeral_localizer_follows_rules :
    (∀ n : ℤ, 0 ≤ n → n ≤ 9999 →
      toKanji n = kanjiPlaceValueRules n ∧ toHiragana n = hiraganaPlaceValueRules n)
    ∧ toKanji 0 = "零" ∧ toHiragana 0 = "れい"
    ∧ toKanji 100 = "百" ∧ toHiragana 100 = "ひゃく"
    ∧ toKanji 300 = "三百" ∧ toHiragana 300 = "さんびゃく"
    ∧ toKanji 1000 = "千" ∧ toHiragana 1000 = "せん"
    ∧ toKanji 3000 = "三千" ∧ toHiragana 3000 = "さんぜん"
    ∧ toKanji 2024 = "二千二十四" ∧ toHiragana 2024 = "にせんにじゅうよん" :=
  ⟨fun n h0 h1 => ⟨toKanji_rules n h0 h1, toHiragana_rules n h0 h1⟩,
    by decide, by decide, by decide, by decide, by decide, by decide,
    by decide, by decide, by decide, by decide, by decide, by decide⟩

/-- Witness for C6, instantiated at n = 2024. -/
theorem numeral_localizer_follows_rules_witness :
    toKanji 2024 = kanjiPlaceValueRules 2024
    ∧ toHiragana 2024 = hiraganaPlaceValueRules 2024 :=
  numeral_localizer_follows_rules.1 2024 (by norm_num) (by norm_num)

/-- C8: the era converter computes the alternate-era year as
`westernYear - 2018` and returns the six string fields combining era
name, numeral renderings and the year suffixes; 2019 maps to era year 1
and 2024 to era year 6; inputs at or below the epoch are passed to the
numeral localizer without validation (2018 renders the era year as the
zero literal, 2017 renders an empty era numeral). -/
theorem era_converter_epoch_offset :
    (∀ y : ℤ, dynamicYear y =
      { imperialEnglish := "Reiwa " ++ toString (y - 2018)
      , imperialKanji := "令和" ++ toKanji (y - 2018) ++ "年"
      , imperialHiragana := "れいわ" ++ toHiragana (y - 2018) ++ "ねん"
      , westernEnglish := toString y
      , westernKanji := toKanji y ++ "年"
      , westernHiragana := toHiragana y ++ "ねん" })
    ∧ (dynamicYear 2019).imperialEnglish = "Reiwa 1"
    ∧ (dynamicYear 2019).imperialKanji = "令和一年"
    ∧ (dynamicYear 2019).imperialHiragana = "れいわいちねん"
    ∧ (dynamicYear 2024).imperialEnglish = "Reiwa 6"
    ∧ (dynamicYear 2024).imperialKanji = "令和六年"
    ∧ (dynamicYear 2024).imperialHiragana = "れいわろくねん"
    ∧ (dynamicYear 2018).imperialKanji = "令和零年"
    ∧ (dynamicYear 2017).imperialKanji = "令和年" :=
  ⟨fun _ => rfl, by decide, by decide, by decide, by decide, by decide,
    by decide, by decide, by decide⟩

unseal Rat.mul Rat.inv Rat.sub Rat.add in
/-- C1: code bug.  `Array(n).map(cb)` does not invoke the callback on
holes, so the seed list built by `newTest` holds no numeric seed at all:
every entry is `undefined` (`none`); consequently each question/answer
call falls back to a fresh `Math.random()` draw inside `randomFromList`,
as the two evaluations of the same template with different fresh draws
show — the pick is redrawn on every call instead of being fixed at
session creation. -/
theorem seed_list_never_populated :
    (∀ (n : ℕ) (draw : ℕ → ℚ), newTestSeeds n draw = List.replicate n none)
    ∧ newTestSeeds questionGenerator.length (fun i => (i : ℚ) / 22) = List.replicate 22 none
    ∧ weekTargetDay ⟨2024, 5, 15⟩ ⟨2024, 5, 15⟩ 0 none 0 = some ⟨2024, 5, 9⟩
    ∧ weekTargetDay ⟨2024, 5, 15⟩ ⟨2024, 5, 15⟩ 0 none (1 / 2) = some ⟨2024, 5, 12⟩ :=
  ⟨newTestSeeds_eq_replicate,
    by rw [newTestSeeds_eq_replicate]; rfl, by decide, by decide⟩

unseal Rat.mul Rat.inv Rat.sub Rat.add in
/-- C2: code bug.  The six week-relative templates build their week grid
from the wall clock (`new Date()`), not from the session's reference
date, so for a fixed (date, seed) both the question and the answer
change when the real-world month changes: with reference date 2024-06-15
and seed 0, a wall clock in June 2024 picks June 2 while a wall clock in
July 2024 picks July 7. -/
theorem week_templates_read_wall_clock :
    qLastWeekDow.createQuestion ⟨⟨2024, 5, 20⟩, ⟨2024, 5, 15⟩, some 0, 0⟩
      ≠ qLastWeekDow.createQuestion ⟨⟨2024, 6, 20⟩, ⟨2024, 5, 15⟩, some 0, 0⟩
    ∧ qLastWeekDow.answer ⟨⟨2024, 5, 20⟩, ⟨2024, 5, 15⟩, some 0, 0⟩
      ≠ qLastWeekDow.answer ⟨⟨2024, 6, 20⟩, ⟨2024, 5, 15⟩, some 0, 0⟩
    ∧ qLastWeekDow.createQuestion ⟨⟨2024, 5, 20⟩, ⟨2024, 5, 15⟩, some 0, 0⟩
      = some ["先週の二日は何曜日でしたか？"]
    ∧ qLastWeekDow.createQuestion ⟨⟨2024, 6, 20⟩, ⟨2024, 5, 15⟩, some 0, 0⟩
      = some ["先週の七日は何曜日でしたか？"] :=
  ⟨by decide, by decide, by decide, by decide⟩

/-- C3 counterexample: the question catalog holds 22 templates (5
day-of-week, 5 day-of-month, 3 month, 3 year and 6 week-relative), not
19 as claimed. -/
theorem catalog_has_22_templates :
    questionGenerator.length = 22 ∧ questionGenerator.length ≠ 19 :=
  ⟨rfl, by decide⟩

/-- C3 (amended): the catalog is a fixed ordered list of exactly 22
templates, and for every sequence of random draws the shuffled question
list of `newTest` is a permutation of the full catalog — every template
appears, none is duplicated, none is omitted. -/
theorem shuffled_catalog_is_permutation :
    (∀ rs : ℕ → ℚ, (shuffle questionGenerator rs).Perm questionGenerator)
    ∧ questionGenerator.length = 22 :=
  ⟨fun rs => shuffleGo_perm rs questionGenerator.length questionGenerator, rfl⟩

/-- C4: code bug.  The "next month" answer indexes the month table with
`Math.min(month + 1, 12)`: for month indices 0..10 this is the in-range
index month + 1, but for December (index 11) it evaluates to 12, beyond
the 12-entry table — `months[12]` is undefined and the answer crashes,
instead of clamping to index 11 as the claim states. -/
theorem next_month_december_out_of_bounds :
    (∀ m : ℕ, m ≤ 10 →
      min ((m : ℤ) + 1) 12 = (m : ℤ) + 1
      ∧ ∀ (y d : ℕ) (now : JDate) (seed : Option ℚ) (fresh : ℚ),
          (qMonthNext.answer ⟨now, ⟨y, m, d⟩, seed, fresh⟩).isSome = true)
    ∧ min ((11 : ℤ) + 1) 12 = 12
    ∧ jsGet months 12 = none
    ∧ qMonthNext.answer ⟨⟨2024, 11, 15⟩, ⟨2024, 11, 15⟩, none, 0⟩ = none := by
  refine ⟨fun m hm => ⟨by omega, fun y d now seed fresh => ?_⟩, by decide, by decide, by decide⟩
  show ((jsGet months (min ((m : ℤ) + 1) 12)).map _).isSome = true
  have hmin : min ((m : ℤ) + 1) 12 = (m : ℤ) + 1 := by omega
  have hlen : months.length = 12 := rfl
  have hs := jsGet_isSome months ((m : ℤ) + 1) (by omega) (by omega)
  obtain ⟨v, hv⟩ := Option.isSome_iff_exists.mp hs
  rw [hmin, hv]
  rfl

/-- Witness for C4, instantiated at month index 4 (May). -/
theorem next_month_december_out_of_bounds_witness :
    min ((4 : ℤ) + 1) 12 = (4 : ℤ) + 1
    ∧ ∀ (y d : ℕ) (now : JDate) (seed : Option ℚ) (fresh : ℚ),
        (qMonthNext.answer ⟨now, ⟨y, 4, d⟩, seed, fresh⟩).isSome = true :=
  next_month_december_out_of_bounds.1 4 (by norm_num)


/-- C5: for every (year, month) the week grid built by `getWeeks`
satisfies: the concatenation of non-empty slots across all rows, in row
order, is exactly the ordered sequence of calendar days of that month
(each day in exactly one slot), every row has 7 slots, and every filled
slot sits at the index equal to its day's weekday (Sunday = 0).  The
finite case analysis behind it covers every first-weekday (including
months beginning on Sunday and on Saturday) and every month length. -/
theorem week_grid_complete (y m : ℕ) (hm : m < 12) :
    (getWeeks y m).flatMap (fun row => row.filterMap id) = monthDates y m
    ∧ (∀ row ∈ getWeeks y m, row.length = 7)
    ∧ ∀ row ∈ getWeeks y m, ∀ k : ℕ, k < 7 → ∀ dt : JDate,
        row[k]? = some (some dt) → dt.getDay = k := by
  obtain ⟨h1, h2⟩ := getWeeks_complete y m hm
  exact ⟨h1, fun row hr => (h2 row hr).1, fun row hr => (h2 row hr).2⟩

/-- Witness for C5, instantiated at June 2024 (a month beginning on a
Saturday). -/
theorem week_grid_complete_witness :
    (getWeeks 2024 5).flatMap (fun row => row.filterMap id) = monthDates 2024 5 :=
  (week_grid_complete 2024 5 (by decide)).1

/-- C7: for every date returned by `generateRandomDate` (over the whole
year range, every month and all random draws in [0,1)), the week-grid
row index of that date within its month's grid lies between 1 and
rowCount - 2: the reference date is never in the first or last row. -/
theorem date_picker_buffer (s1 s2 s3 : ℚ)
    (h10 : 0 ≤ s1) (h11 : s1 < 1) (h20 : 0 ≤ s2) (h21 : s2 < 1)
    (h30 : 0 ≤ s3) (h31 : s3 < 1) :
    ∃ dt : JDate, generateRandomDate s1 s2 s3 = some dt
      ∧ 1 ≤ currentWeekIndex (getWeeks dt.year dt.month) dt
      ∧ currentWeekIndex (getWeeks dt.year dt.month) dt + 2
          ≤ ((getWeeks dt.year dt.month).length : ℤ) := by
  have hmm := getRandomIntQ_mem 0 11 s2 h20 h21 (by norm_num)
  set y := (getRandomIntQ 2019 2049 s1).toNat with hy
  set m := (getRandomIntQ 0 11 s2).toNat with hmdef
  have hm12 : m < 12 := by omega
  obtain ⟨d, hpick, _, _, hr1, hr2⟩ := pickFromCalendar_spec y m hm12 s3 h30 h31
  refine ⟨⟨y, m, d⟩, hpick, ?_, ?_⟩
  · show 1 ≤ currentWeekIndex (getWeeks y m) ⟨y, m, d⟩
    rw [currentWeekIndex_getWeeks]
    exact hr1
  · show currentWeekIndex (getWeeks y m) ⟨y, m, d⟩ + 2 ≤ ((getWeeks y m).length : ℤ)
    rw [currentWeekIndex_getWeeks, getWeeks_length]
    exact hr2

/-- Witness for C7 at the random draws (0, 0, 0). -/
theorem date_picker_buffer_witness :
    ∃ dt : JDate, generateRandomDate 0 0 0 = some dt
      ∧ 1 ≤ currentWeekIndex (getWeeks dt.year dt.month) dt
      ∧ currentWeekIndex (getWeeks dt.year dt.month) dt + 2
          ≤ ((getWeeks dt.year dt.month).length : ℤ) :=
  date_picker_buffer 0 0 0 (le_refl 0) zero_lt_one (le_refl 0) zero_lt_one
    (le_refl 0) zero_lt_one

/-- C10: every reference date produced by `generateRandomDate` has its
day-of-month in [3, daysInMonth - 2], so all five day-of-month template
reads of the 31-entry `days` table — indices day-3, day-2, day-1, day
and day+1 — are in bounds [0, 30] and none yields `undefined`. -/
theorem day_table_access_safe (s1 s2 s3 : ℚ)
    (h10 : 0 ≤ s1) (h11 : s1 < 1) (h20 : 0 ≤ s2) (h21 : s2 < 1)
    (h30 : 0 ≤ s3) (h31 : s3 < 1) :
    ∃ dt : JDate, generateRandomDate s1 s2 s3 = some dt
      ∧ 3 ≤ dt.day ∧ dt.day + 2 ≤ daysInMonth dt.year dt.month
      ∧ 0 ≤ (dt.day : ℤ) - 3 ∧ (dt.day : ℤ) + 1 ≤ 30
      ∧ ∀ (now : JDate) (seed : Option ℚ) (fresh : ℚ),
          (qDateM2.answer ⟨now, dt, seed, fresh⟩).isSome = true
          ∧ (qDateM1.answer ⟨now, dt, seed, fresh⟩).isSome = true
          ∧ (qDate0.answer ⟨now, dt, seed, fresh⟩).isSome = true
          ∧ (qDateP1.answer ⟨now, dt, seed, fresh⟩).isSome = true
          ∧ (qDateP2.answer ⟨now, dt, seed, fresh⟩).isSome = true := by
  have hmm := getRandomIntQ_mem 0 11 s2 h20 h21 (by norm_num)
  set y := (getRandomIntQ 2019 2049 s1).toNat with hy
  set m := (getRandomIntQ 0 11 s2).toNat with hmdef
  have hm12 : m < 12 := by omega
  obtain ⟨d, hpick, hd3, hdn, _, _⟩ := pickFromCalendar_spec y m hm12 s3 h30 h31
  have hdim := daysInMonth_bounds y m hm12
  have hlen : days.length = 31 := rfl
  refine ⟨⟨y, m, d⟩, hpick, hd3, hdn,
    by show (0 : ℤ) ≤ (d : ℤ) - 3; omega,
    by show (d : ℤ) + 1 ≤ 30; omega, ?_⟩
  intro now seed fresh
  refine ⟨?_, ?_, ?_, ?_, ?_⟩
  · show ((jsGet days ((d : ℤ) - 3)).map _).isSome = true
    exact isSome_map_jsGet _ _ _ (by omega) (by rw [hlen]; omega)
  · show ((jsGet days ((d : ℤ) - 2)).map _).isSome = true
    exact isSome_map_jsGet _ _ _ (by omega) (by rw [hlen]; omega)
  · show ((jsGet days ((d : ℤ) - 1)).map _).isSome = true
    exact isSome_map_jsGet _ _ _ (by omega) (by rw [hlen]; omega)
  · show ((jsGet days ((d : ℤ))).map _).isSome = true
    exact isSome_map_jsGet _ _ _ (by omega) (by rw [hlen]; omega)
  · show ((jsGet days ((d : ℤ) + 1)).map _).isSome = true
    exact isSome_map_jsGet _ _ _ (by omega) (by rw [hlen]; omega)

/-- Witness for C10 at the random draws (0, 0, 0). -/
theorem day_table_access_safe_witness :
    ∃ dt : JDate, generateRandomDate 0 0 0 = some dt
      ∧ 3 ≤ dt.day ∧ dt.day + 2 ≤ daysInMonth dt.year dt.month
      ∧ 0 ≤ (dt.day : ℤ) - 3 ∧ (dt.day : ℤ) + 1 ≤ 30
      ∧ ∀ (now : JDate) (seed : Option ℚ) (fresh : ℚ),
          (qDateM2.answer ⟨now, dt, seed, fresh⟩).isSome = true
          ∧ (qDateM1.answer ⟨now, dt, seed, fresh⟩).isSome = true
          ∧ (qDate0.answer ⟨now, dt, seed, fresh⟩).isSome = true
          ∧ (qDateP1.answer ⟨now, dt, seed, fresh⟩).isSome = true
          ∧ (qDateP2.answer ⟨now, dt, seed, fresh⟩).isSome = true :=
  day_table_access_safe 0 0 0 (le_refl 0) zero_lt_one (le_refl 0) zero_lt_one
    (le_refl 0) zero_lt_one

/-- C9: for the two "this week" templates, the question and the answer
are phrased in the past tense exactly when the chosen target day is
strictly before the reference date, where the `targetDay < date`
comparison on midnight dates is day-granular (lexicographic on year,
month, day).  The wall-clock date the templates read is the explicit
`now` parameter of the embedding. -/
theorem this_week_templates_tense (now ref : JDate) (seed : Option ℚ) (fresh : ℚ)
    (t : JDate) (hm : now.month < 12)
    (ht : weekTargetDay now ref 0 seed fresh = some t) :
    (JDate.lt t ref = true ↔
      (t.year < ref.year ∨ (t.year = ref.year ∧ (t.month < ref.month
        ∨ (t.month = ref.month ∧ t.day < ref.day)))))
    ∧ (∃ e, dayOfWeekEntry t = some e
        ∧ qThisWeekDate.createQuestion ⟨now, ref, seed, fresh⟩
            = some ["今週の" ++ e.kanji ++ "は何日"
                ++ (if JDate.lt t ref then "でしたか？" else "ですか？")]
        ∧ qThisWeekDate.answer ⟨now, ref, seed, fresh⟩
            = some [joinWithArrow
                ["What date " ++ (if JDate.lt t ref then "was" else "is")
                  ++ " this week\x27s " ++ e.english ++ "?",
                  e.english, e.kanji, e.hiragana]])
    ∧ (∃ de we, jsGet days ((t.day : ℤ) - 1) = some de ∧ dayOfWeekEntry t = some we
        ∧ qThisWeekDow.createQuestion ⟨now, ref, seed, fresh⟩
            = some ["今週の" ++ de.kanji ++ "は何曜日"
                ++ (if JDate.lt t ref then "でしたか？" else "ですか？")]
        ∧ qThisWeekDow.answer ⟨now, ref, seed, fresh⟩
            = some [joinWithArrow
                ["What day " ++ (if JDate.lt t ref then "was" else "is")
                  ++ " this week\x27s " ++ de.english ++ "?",
                  we.english, we.kanji, we.hiragana]]) := by
  have hb := weekTargetDay_mem now ref 0 seed fresh t hm ht
  have hdim := daysInMonth_bounds now.year now.month hm
  have h7 : daysOfWeek.length = 7 := rfl
  have h31 : days.length = 31 := rfl
  obtain ⟨we, hwe⟩ : ∃ we, dayOfWeekEntry t = some we := by
    apply Option.isSome_iff_exists.mp
    unfold dayOfWeekEntry
    apply jsGet_isSome
    · exact Int.natCast_nonneg _
    · rw [Int.toNat_natCast, h7]
      exact Nat.mod_lt _ (by norm_num)
  obtain ⟨de, hde⟩ : ∃ de, jsGet days ((t.day : ℤ) - 1) = some de := by
    apply Option.isSome_iff_exists.mp
    apply jsGet_isSome
    · omega
    · rw [h31]
      omega
  refine ⟨?_, ⟨we, hwe, ?_, ?_⟩, ⟨de, we, hde, hwe, ?_, ?_⟩⟩
  · unfold JDate.lt
    simp [Bool.or_eq_true, Bool.and_eq_true, decide_eq_true_eq, beq_iff_eq]
  · show ((weekTargetDay now ref 0 seed fresh).bind _) = _
    rw [ht, Option.some_bind, hwe]
    rfl
  · show ((weekTargetDay now ref 0 seed fresh).bind _) = _
    rw [ht, Option.some_bind, hwe]
    rfl
  · show ((weekTargetDay now ref 0 seed fresh).bind _) = _
    rw [ht, Option.some_bind, hde]
    rfl
  · show ((weekTargetDay now ref 0 seed fresh).bind _) = _
    rw [ht, Option.some_bind, hde, Option.some_bind, hwe]
    rfl

unseal Rat.mul Rat.inv Rat.sub Rat.add in
/-- Witness for C9: wall clock and reference date 2024-06-15, seed 0;
the chosen target is Sunday 2024-06-09, which precedes the reference
date, so the comparison characterization is checked there. -/
theorem this_week_templates_tense_witness :
    JDate.lt ⟨2024, 5, 9⟩ ⟨2024, 5, 15⟩ = true ↔
      ((2024 : ℕ) < 2024 ∨ ((2024 : ℕ) = 2024 ∧ ((5 : ℕ) < 5
        ∨ ((5 : ℕ) = 5 ∧ (9 : ℕ) < 15)))) :=
  (this_week_templates_tense ⟨2024, 5, 15⟩ ⟨2024, 5, 15⟩ (some 0) 0 ⟨2024, 5, 9⟩
    (by decide) (by decide)).1

end JDQ
